import Mathlib

/-!
Verification of the telegram-bot payment/outreach pipeline.

We give a shallow embedding of the parts of the code that the specified
properties are about: the per-user slice of the Redis store, the payment
reconciliation paths (Stripe webhook, Mangofy callback, payment poll loop),
the followup scheduler, the dispatch loop's admission control, the UTMify
retry queue, the Stripe signature check and the checkout-reuse helper.
Redis hash fields are modelled as `String` with `""` standing for an absent
field (Python reads them through `hget`, where both `None` and `""` are
falsy); sets and sorted-set membership are modelled per user.  Network
sends are modelled by an explicit outcome parameter together with ghost
counters that count the messages actually handed to the chat API.
-/

namespace TelegramBot

/-- ASCII uppercasing, the effect of Python `str.upper()` on the ASCII
status strings this code handles (kernel-reducible, unlike
`String.toUpper`). -/
def asciiUpper (s : String) : String :=
  String.mk (s.data.map Char.toUpper)

/-- Parses a digit string, as Python `int()` does on the canonical values
this code stores. -/
def parseNatChars (cs : List Char) : Option Nat :=
  if cs ≠ [] ∧ cs.all Char.isDigit then
    some (cs.foldl (fun acc c => acc * 10 + (c.toNat - 48)) 0)
  else none

/-- Python `int(s)` restricted to optionally-negated digit strings (the
only shapes this code ever stores); anything else raises, modelled as
`none`. -/
def parseIntStr (s : String) : Option Int :=
  match s.data with
  | '-' :: rest => (parseNatChars rest).map (fun n => -(n : Int))
  | cs => (parseNatChars cs).map (fun n => (n : Int))

/-- Python `str.split(sep)` for a one-character separator, over char
lists. -/
def splitListOn (c : Char) : List Char → List (List Char)
  | [] => [[]]
  | x :: xs =>
      match splitListOn c xs with
      | [] => [[]]
      | h :: t => if x = c then [] :: h :: t else (x :: h) :: t

/-- Python `str.strip()` over char lists. -/
def trimChars (cs : List Char) : List Char :=
  ((cs.dropWhile Char.isWhitespace).reverse.dropWhile Char.isWhitespace).reverse

/-- Embeds `_map_gateway_status` (webhook.py): normalizes a raw gateway
status to the internal vocabulary.  Unknown non-empty statuses are
returned unchanged (both the `failed` branch and the fallthrough return
`s`). -/
def mapGatewayStatus (raw : String) : String :=
  let s := asciiUpper raw
  if ["OK", "COMPLETED", "TRANSACTION_PAID", "PAID", "APPROVED"].contains s then "OK"
  else if ["PENDING", "TRANSACTION_CREATED", "WAITING_PAYMENT", "CREATED", "PROCESSING",
      "OPEN", "UNPAID"].contains s ∨ s = "" then "PENDING"
  else s

/-- Embeds `_normalize_gateway_status` (pix_payment.py): the poll-side
normalization with its own (smaller) vocabulary. -/
def normalizeGatewayStatus (raw : String) : String :=
  let s := asciiUpper raw
  if ["PAID", "COMPLETE", "OK"].contains s then "OK"
  else if ["UNPAID", "OPEN", "PENDING"].contains s ∨ s = "" then "PENDING"
  else s

/-- The `tg:pix:{user_id}` hash.  A field holding `""` stands for an absent
field; the surrounding `Option` distinguishes a missing key (`hgetall`
returning `{}`). -/
structure PixRecord where
  status : String := ""
  transaction_id : String := ""
  payment_code : String := ""
  stripe_session_id : String := ""
  identifier : String := ""
  checkout_url : String := ""
  pix_code : String := ""
  amount : String := ""
  qr_image : String := ""
  qr_base64 : String := ""
  created_at : String := ""
  gateway : String := ""
  deriving Repr, DecidableEq

/-- The empty pix hash (all fields absent). -/
def PixRecord.empty : PixRecord := {}

/-- The per-user slice of the shared Redis store: the `tg:user:{uid}` hash
(paid flag, chat id, owning bot id, followup counter), membership in the
blocked set and the pending-payment set, the user's score in the followup
due zset, the `tg:pix:{uid}` hash, and the `tg:access:delivery:{uid}`
record.  `accessSends` and `followupFires` are ghost counters of the
messages actually handed to `bot.send_message`/`send_video`. -/
structure UserStore where
  paid : String := ""
  chatId : String := ""
  botId : String := ""
  followupIdx : String := ""
  cycleCount : String := ""
  blocked : Bool := false
  due : Option Int := none
  pending : Bool := false
  pix : Option PixRecord := none
  deliveryKey : String := ""
  deliverySent : Bool := false
  accessSends : Nat := 0
  followupFires : Nat := 0
  deriving Repr, DecidableEq

/-- Reads a field of the user's pix hash, `""` when the key is missing
(`hget` on a missing key returns `None`, which the code treats like `""`). -/
def pixField (f : PixRecord → String) (s : UserStore) : String :=
  (s.pix.map f).getD ""

/-- Applies an `hset` on the user's pix hash (creating the key if absent,
as Redis `HSET` does). -/
def hsetPix (f : PixRecord → PixRecord) (s : UserStore) : UserStore :=
  { s with pix := some (f (s.pix.getD PixRecord.empty)) }

/-- Embeds `mark_paid` (campaign.py): sets the paid flag, removes the due
entry, removes the user from the pending-payment set. -/
def markPaid (s : UserStore) : UserStore :=
  { s with paid := "1", due := none, pending := false }

/-- Embeds `mark_unpaid` (campaign.py): rewrites chat id, paid flag and
owning bot id; with `resetCycle` it also clears the followup counters and
unschedules the due entry. -/
def markUnpaid (globalBotId chatId : String) (resetCycle : Bool) (s : UserStore) : UserStore :=
  if resetCycle then
    { s with chatId := chatId, paid := "0", botId := globalBotId,
             followupIdx := "0", cycleCount := "0", due := none }
  else
    { s with chatId := chatId, paid := "0", botId := globalBotId }

/-- Embeds `mark_blocked` (campaign.py). -/
def markBlocked (s : UserStore) : UserStore :=
  { s with blocked := true, due := none }

/-- Embeds `is_paid` (campaign.py). -/
def isPaid (s : UserStore) : Bool :=
  s.paid == "1"

/-- Embeds `schedule_next_followup` (campaign.py): upserts the user's due
score to `now + delay` (a zset holds one entry per member). -/
def scheduleNextFollowup (now delay : Int) (s : UserStore) : UserStore :=
  { s with due := some (now + delay) }

/-- Embeds `mark_payment_confirmed` (pix_payment.py). -/
def markPaymentConfirmed (s : UserStore) : UserStore :=
  hsetPix (fun d => { d with status := "OK" }) s

/-- Embeds `deliver_access_if_needed` (access_delivery.py).  `freshKey` is
the key `generate_access_key` would mint on this call, `sendOk` the outcome
of `bot.send_message` (`false` = the call raises, modelled as `.error`; the
delivery record is then left untouched, since `sent` is recorded only after
a successful send).  Returns the `(sent_now, access_key)` result and the
resulting store. -/
def deliverAccessIfNeeded (freshKey : String) (sendOk : Bool) (resendIfSent : Bool)
    (s : UserStore) : Except Unit (Bool × String) × UserStore :=
  if s.chatId = "" then (.ok (false, ""), s)
  else
    let accessKey := if s.deliveryKey = "" then freshKey else s.deliveryKey
    if s.deliverySent = true ∧ resendIfSent = false then (.ok (false, accessKey), s)
    else if sendOk then
      (.ok (!s.deliverySent, accessKey),
        { s with deliveryKey := accessKey, deliverySent := true,
                 accessSends := s.accessSends + 1 })
    else (.error (), s)

/-- Embeds `check_payment_status` (pix_payment.py).  `gw` is the gateway
query result: `some raw` models a 200 response carrying `payment_status`
`raw`, `none` models a non-200 response or a network exception (both make
the function return the stored status).  A stored status other than `""`
and `"PENDING"` is returned without querying the gateway; a non-`PENDING`
gateway result is written back. -/
def checkPaymentStatus (gw : Option String) (s : UserStore) : String × UserStore :=
  let status := pixField (fun d => d.status) s
  if status ≠ "" ∧ status ≠ "PENDING" then (status, s)
  else
    let sessionId :=
      if pixField (fun d => d.stripe_session_id) s ≠ "" then
        pixField (fun d => d.stripe_session_id) s
      else pixField (fun d => d.transaction_id) s
    if sessionId = "" then (status, s)
    else
      match gw with
      | none => (status, s)
      | some raw =>
          let normalized := normalizeGatewayStatus raw
          if normalized ≠ "PENDING" then (normalized, hsetPix (fun d => { d with status := normalized }) s)
          else (normalized, s)

/-- The normalized status the Stripe webhook computes: `_map_gateway_status`
of the payload status, overridden by the event type (webhook.py). -/
def stripeEventStatus (eventType paymentStatus : String) : String :=
  let status := mapGatewayStatus paymentStatus
  if eventType = "checkout.session.completed" ∨
      eventType = "checkout.session.async_payment_succeeded" then "OK"
  else if eventType = "checkout.session.expired" ∨
      eventType = "checkout.session.async_payment_failed" then "FAILED"
  else status

/-- Embeds the per-user effect of `stripe_webhook` (webhook.py) once the
user has been resolved: the pix hash is overwritten with the newly observed
status and identifiers, then the `OK` branch confirms the payment, marks
the user paid and delivers the access key (wrapped in try/except, with the
default `resend_if_sent=True`); the `PENDING` branch changes nothing
further; any other status removes the user from the pending set. -/
def stripeReconcile (eventType paymentStatus sessionId eventId freshKey : String)
    (sendOk : Bool) (s : UserStore) : UserStore :=
  let status := stripeEventStatus eventType paymentStatus
  let s1 := hsetPix
    (fun d =>
      { d with status := status, transaction_id := sessionId, payment_code := sessionId,
               stripe_session_id := sessionId,
               identifier := if eventId ≠ "" then eventId else d.identifier,
               gateway := "stripe" }) s
  if status = "OK" then
    let s2 := markPaymentConfirmed s1
    let s3 := markPaid s2
    let s4 := { s3 with pending := false }
    if s4.chatId ≠ "" then (deliverAccessIfNeeded freshKey sendOk true s4).2 else s4
  else if status = "PENDING" ∨ status = "WAITING_PAYMENT" then s1
  else { s1 with pending := false }

/-- Embeds the per-user effect of `mangofy_callback` (webhook.py) once the
user has been resolved: the status field is overwritten with the newly
observed normalized status, identifiers are refreshed, then the `OK`
branch confirms and marks paid (no access delivery happens on this path);
`PENDING` changes nothing further; other statuses are removed from the
pending set.  (The upsell mirror keys are outside the claims.) -/
def mangofyReconcile (rawStatus externalCode paymentCode : String) (s : UserStore) : UserStore :=
  let status := mapGatewayStatus rawStatus
  let s1 := hsetPix (fun d => { d with status := status }) s
  let s2 := if externalCode ≠ "" then hsetPix (fun d => { d with identifier := externalCode }) s1 else s1
  let s3 :=
    if paymentCode ≠ "" then
      hsetPix (fun d => { d with transaction_id := paymentCode, payment_code := paymentCode }) s2
    else s2
  if status = "OK" then
    let s4 := markPaymentConfirmed s3
    let s5 := markPaid s4
    { s5 with pending := false }
  else if status = "PENDING" then s3
  else { s3 with pending := false }

/-- Embeds the per-user effect of `process_pending_user` (worker.py, poll
loop): runs `check_payment_status`; on `OK` marks paid, removes from the
pending set and delivers the access key with `resend_if_sent=False`; on a
truthy status that is neither `PENDING` nor `WAITING_PAYMENT` removes the
user from the pending set. -/
def pollReconcile (gw : Option String) (freshKey : String) (sendOk : Bool)
    (s : UserStore) : UserStore :=
  let r := checkPaymentStatus gw s
  let status := r.1
  let s1 := r.2
  if status = "OK" then
    let s2 := markPaid s1
    let s3 := { s2 with pending := false }
    if s3.chatId ≠ "" then (deliverAccessIfNeeded freshKey sendOk false s3).2 else s3
  else if status ≠ "" ∧ status ≠ "PENDING" ∧ status ≠ "WAITING_PAYMENT" then
    { s1 with pending := false }
  else s1

/-- One reconciliation trigger for a given user: a resolved Stripe webhook,
a resolved Mangofy callback, or one poll-loop visit. -/
inductive RecEvent where
  | stripe (eventType paymentStatus sessionId eventId freshKey : String) (sendOk : Bool)
  | mangofy (rawStatus externalCode paymentCode : String)
  | poll (gw : Option String) (freshKey : String) (sendOk : Bool)
  deriving Repr

/-- The store transition of one reconciliation trigger. -/
def recStep : RecEvent → UserStore → UserStore
  | .stripe et ps sid eid k ok, s => stripeReconcile et ps sid eid k ok s
  | .mangofy raw ec pc, s => mangofyReconcile raw ec pc s
  | .poll gw k ok, s => pollReconcile gw k ok s

/-- Whether a reconciliation trigger observes normalized status `OK` in
state `s` (for the poll path this is the `check_payment_status` result). -/
def observesOK : RecEvent → UserStore → Bool
  | .stripe et ps _ _ _ _, _ => stripeEventStatus et ps == "OK"
  | .mangofy raw _ _, _ => mapGatewayStatus raw == "OK"
  | .poll gw _ _, s => (checkPaymentStatus gw s).1 == "OK"

/-- Runs a sequence of reconciliation triggers. -/
def recRun (es : List RecEvent) (s : UserStore) : UserStore :=
  es.foldl (fun acc e => recStep e acc) s

/-- The store slice of a user right after `/start` (`mark_unpaid` with
`reset_cycle=True` on a fresh hash). -/
def freshUser (chatId botId : String) : UserStore :=
  markUnpaid botId chatId true {}

/-- Outcome of the Telegram sends attempted inside `send_next_followup`:
all messages go through (`delivered`), some send raises a
Forbidden/chat-not-found error (`forbidden`: the function marks the user
blocked and aborts), or some send raises another error (`failedOther`: the
exception is caught without a `return`, so the flow continues to
completion). -/
inductive SendOutcome where
  | delivered
  | forbidden
  | failedOther
  deriving Repr, DecidableEq

/-- Embeds `send_next_followup` (campaign.py).  Guards in source order:
paid or blocked; missing chat id; an entry owned by another bot (or with
no owner) is dropped from the due zset; a `followup_idx` of 1 or more
means the single followup already fired, so the due entry is removed and
nothing is sent.  Otherwise the followup is sent (ghost-counted in
`followupFires`), `followup_idx` is set to `"1"` and the due entry
removed.  `globalBotId` is the `BOT_ID` constant. -/
def sendNextFollowup (globalBotId : String) (out : SendOutcome) (s : UserStore) :
    Bool × UserStore :=
  if isPaid s = true ∨ s.blocked = true then (false, s)
  else if s.chatId = "" then (false, s)
  else if s.botId ≠ "" ∧ globalBotId ≠ "" ∧ s.botId ≠ globalBotId then
    (false, { s with due := none })
  else if s.botId = "" then (false, { s with due := none })
  else if (parseIntStr s.followupIdx).getD 0 ≥ 1 then (false, { s with due := none })
  else
    let s1 := { s with followupFires := s.followupFires + 1 }
    match out with
    | .forbidden => (false, markBlocked s1)
    | _ => (true, { s1 with followupIdx := "1", due := none })

/-- One interaction with the due-time scheduler for a single user: a
`schedule_next_followup` call, or one `campaign_due_loop` cycle at time
`now` (which, when the user's entry is due, removes it first and then
invokes `send_next_followup` with send outcome `out`). -/
inductive CampaignOp where
  | schedule (now delay : Int)
  | poll (now : Int) (out : SendOutcome)
  deriving Repr

/-- The single-user store transition of one scheduler interaction.  The
due-loop selects entries with score in `[0, now]` and removes each entry
before invoking the followup; an exception from the followup is caught
and the entry is not rescheduled. -/
def campaignStep (globalBotId : String) : CampaignOp → UserStore → UserStore
  | .schedule now delay, s => scheduleNextFollowup now delay s
  | .poll now out, s =>
      match s.due with
      | some t =>
          if 0 ≤ t ∧ t ≤ now then
            (sendNextFollowup globalBotId out { s with due := none }).2
          else s
      | none => s

/-- Runs a sequence of scheduler interactions. -/
def campaignRun (globalBotId : String) (ops : List CampaignOp) (s : UserStore) : UserStore :=
  ops.foldl (fun acc op => campaignStep globalBotId op acc) s

/-! The followup due zset across all users, for the batch properties of
`campaign_due_loop` (campaign.py).  A zset is a list of (member, score)
pairs with distinct members. -/

/-- Score of a member in the zset, `none` when absent. -/
def zsetLookup (z : List (String × Int)) (uid : String) : Option Int :=
  (z.find? (fun p => p.1 == uid)).map (fun p => p.2)

/-- Embeds Redis `ZREM`: removes a member. -/
def zremUid (z : List (String × Int)) (uid : String) : List (String × Int) :=
  z.filter (fun p => p.1 ≠ uid)

/-- Order on zset entries by score (range queries return entries in
non-decreasing score order). -/
def scoreLE (a b : String × Int) : Prop := a.2 ≤ b.2

instance : DecidableRel scoreLE := fun a b => inferInstanceAs (Decidable (a.2 ≤ b.2))

instance : IsTotal (String × Int) scoreLE := ⟨fun a b => le_total a.2 b.2⟩

instance : IsTrans (String × Int) scoreLE := ⟨fun _ _ _ hab hbc => le_trans hab hbc⟩

/-- Embeds `zrangebyscore(key, lo, hi, start=0, num)` : the members with
score in `[lo, hi]`, in non-decreasing score order, truncated to `num`. -/
def zrangebyscoreLimit (z : List (String × Int)) (lo hi : Int) (num : Nat) :
    List (String × Int) :=
  ((z.filter (fun p => lo ≤ p.2 ∧ p.2 ≤ hi)).insertionSort scoreLE).take num

/-- The body of one `campaign_due_loop` batch over the already selected
entries: each entry is removed from the zset *before* its followup action
runs; `actionEffect uid` is the zset effect of `send_next_followup` for
`uid` (per source it only ever removes `uid` itself, never adds — this is
a hypothesis of the theorems).  On an exception from the action the loop
logs and continues without rescheduling.  Returns the final zset and, for
each invoked entry, the zset state at the moment of invocation. -/
def processSelected (actionEffect : String → List (String × Int) → List (String × Int)) :
    List (String × Int) → List (String × Int) →
    List (String × Int) × List (String × List (String × Int))
  | [], z => (z, [])
  | p :: ps, z =>
      let z1 := zremUid z p.1
      let z2 := actionEffect p.1 z1
      let rest := processSelected actionEffect ps z2
      (rest.1, (p.1, z1) :: rest.2)

/-- One full `campaign_due_loop` cycle at time `now`: select up to 50 due
entries (score in `[0, now]`, oldest first), then process them. -/
def runDueCycle (actionEffect : String → List (String × Int) → List (String × Int))
    (now : Int) (z : List (String × Int)) :
    List (String × Int) × List (String × List (String × Int)) :=
  processSelected actionEffect (zrangebyscoreLimit z 0 now 50) z

/-! The dispatch loop of `run_worker` (worker.py): a BLPOP loop over the
durable update queue, gated by `asyncio.Semaphore(max(1, WORKER_MAX_CONCURRENT_UPDATES))`;
`await update_sem.acquire()` runs before `asyncio.create_task(process_update(raw))`,
and `process_update` releases the semaphore in its `finally` block. -/

/-- State of the dispatch loop: the remaining durable queue, the item
popped but not yet granted a slot (the loop variable `raw` between BLPOP and
`acquire`), free semaphore slots, and in-flight `process_update` tasks. -/
structure DispatchState where
  queue : List String
  held : Option String
  available : Nat
  inflight : Nat
  deriving Repr, DecidableEq

/-- The events of the dispatch loop.  `pop` is a successful BLPOP (FIFO),
`popTimeout` a BLPOP timeout on an empty queue; `acquireSpawn` dispatches the
held item — it requires a free slot, consumes it, and spawns the task;
`finish` is a task completing (its `finally` releases the slot whether the
handler succeeded or raised, hence the unused `handlerOk`). -/
inductive DispatchStep : DispatchState → DispatchState → Prop where
  | pop (s : DispatchState) (r : String) (rest : List String) :
      s.held = none → s.queue = r :: rest →
      DispatchStep s { s with queue := rest, held := some r }
  | popTimeout (s : DispatchState) :
      s.held = none → s.queue = [] → DispatchStep s s
  | acquireSpawn (s : DispatchState) (r : String) :
      s.held = some r → 0 < s.available →
      DispatchStep s
        { s with held := none, available := s.available - 1, inflight := s.inflight + 1 }
  | finish (s : DispatchState) (handlerOk : Bool) :
      0 < s.inflight →
      DispatchStep s { s with available := s.available + 1, inflight := s.inflight - 1 }

/-- The initial dispatch state: the semaphore holds
`max(1, WORKER_MAX_CONCURRENT_UPDATES)` slots and no task is in flight. -/
def initialDispatch (maxConcurrentUpdates : Nat) (queue : List String) : DispatchState :=
  { queue := queue, held := none, available := max 1 maxConcurrentUpdates, inflight := 0 }

/-! The UTMify retry queue (tracking.py). -/

/-- `enqueue_utmify_retry` enqueues every item with this attempt counter. -/
def utmifyRetryInitialAttempt : Nat := 1

/-- The `max_attempts` default of `process_utmify_retries`. -/
def utmifyMaxAttempts : Nat := 3

/-- The re-enqueue decision of `process_utmify_retries` after a failed
delivery: re-enqueue with `attempt+1` only while `attempt < max_attempts`,
otherwise drop. -/
def retryAfterFailure (maxAttempts attempt : Nat) : Option Nat :=
  if attempt < maxAttempts then some (attempt + 1) else none

/-- One drain visit to an item: on a delivered order (`HTTP < 400`) the
item is done; on failure it is re-enqueued or dropped per
`retryAfterFailure`.  `none` means the item left the queue for good. -/
def drainItemStep (maxAttempts : Nat) (deliverOk : Bool) (attempt : Nat) : Option Nat :=
  if deliverOk then none else retryAfterFailure maxAttempts attempt

/-- Number of delivery attempts an item with counter `a` undergoes across
drain cycles whose successive delivery outcomes are `os` (each pop of the
item consumes one outcome; the lineage ends when the item is dropped or
delivered, or when no more drains happen). -/
def deliveryAttempts (maxAttempts : Nat) : List Bool → Nat → Nat
  | [], _ => 0
  | o :: os, a =>
      1 + (match drainItemStep maxAttempts o a with
           | some a2 => deliveryAttempts maxAttempts os a2
           | none => 0)

/-! The Stripe webhook signature check (`_verify_stripe_signature`,
webhook.py) and the handler's acknowledgement behaviour. -/

/-- Python dict lookup over insertion-ordered pairs: the last binding of a
key wins (later assignments overwrite). -/
def dictGet (parts : List (String × String)) (k : String) : Option String :=
  (parts.reverse.find? (fun p => p.1 == k)).map (fun p => p.2)

/-- Embeds the header parse of `_verify_stripe_signature`: split the
`Stripe-Signature` header on `,`; every item containing `=` is split at
its first `=` (Python `item.split("=", 1)`, i.e. re-joining the remaining
pieces) and contributes a stripped key/value pair. -/
def sigParts (sig : String) : List (String × String) :=
  (splitListOn ',' sig.data).foldl
    (fun parts item =>
      let ps := splitListOn '=' item
      if ps.length ≥ 2 then
        parts ++ [(String.mk (trimChars (ps.headD [])),
                   String.mk (trimChars (List.intercalate ['='] ps.tail)))]
      else parts)
    []

/-- Embeds `_verify_stripe_signature`.  `hmacSha256Hex secret msg` stands
for the hex HMAC-SHA256 digest; `hmac.compare_digest` is modelled by its
functional content, equality of the two digests (its constant-time nature
is a timing property outside this embedding).  With no configured secret
every request verifies; with a missing header, or a missing/empty `t` or
`v1` part, verification fails; otherwise the digest of
`"{timestamp}.{rawBody}"` is compared against `v1`. -/
def verifyStripeSignature (secret : String) (hmacSha256Hex : String → String → String)
    (rawBody sig : String) : Bool :=
  if secret = "" then true
  else if sig = "" then false
  else
    let t := (dictGet (sigParts sig) "t").getD ""
    let v1 := (dictGet (sigParts sig) "v1").getD ""
    if t = "" ∨ v1 = "" then false
    else hmacSha256Hex secret (t ++ "." ++ rawBody) == v1

/-- Outcome of the body of the `stripe_webhook` handler after signature
verification: normal completion or a raised exception. -/
inductive WebhookOutcome where
  | processed
  | raised (err : String)
  deriving Repr

/-- The `ok` field of the `stripe_webhook` response: `False` only on a
failed signature check; the whole handler body is wrapped in
`try/except`, and the `except` branch also returns `ok=True`. -/
def stripeWebhookResponseOk (secret : String) (hmacSha256Hex : String → String → String)
    (rawBody sig : String) (processing : WebhookOutcome) : Bool :=
  if verifyStripeSignature secret hmacSha256Hex rawBody sig then
    match processing with
    | .processed => true
    | .raised _ => true
  else false

/-! `get_reusable_pending_pix` (pix_payment.py). -/

/-- The dict returned by `get_reusable_pending_pix` on reuse. -/
structure ReusedCheckout where
  code : String
  transactionId : String
  status : String
  qr_image : String
  qr_base64 : String
  identifier : String
  payment_code : String
  checkout_url : String
  reused : Bool
  deriving Repr, DecidableEq

/-- Embeds `get_reusable_pending_pix`.  `hgetall` of a missing key is the
`none` case; a missing `created_at` reads as `"0"`; an unparseable
`created_at` sets the age to `max_age_seconds + 1`.  The `amount` argument
is accepted and never consulted. -/
def getReusablePendingPix (now : Int) (amount : Int) (maxAgeSeconds : Int)
    (pix : Option PixRecord) : Option ReusedCheckout :=
  match pix with
  | none => none
  | some d =>
      let status := asciiUpper d.status
      if ¬ (status = "" ∨ status = "PENDING" ∨ status = "WAITING_PAYMENT") then none
      else
        let code := if d.checkout_url ≠ "" then d.checkout_url else d.pix_code
        if code = "" then none
        else
          let age : Int :=
            match parseIntStr (if d.created_at = "" then "0" else d.created_at) with
            | some c => now - c
            | none => maxAgeSeconds + 1
          if age > maxAgeSeconds then none
          else
            some { code := code,
                   transactionId := if d.transaction_id ≠ "" then d.transaction_id else d.payment_code,
                   status := if status ≠ "" then status else "PENDING",
                   qr_image := d.qr_image, qr_base64 := d.qr_base64,
                   identifier := d.identifier, payment_code := d.payment_code,
                   checkout_url := code, reused := true }

/-! Helper lemmas. -/

theorem deliver_state_paid (k : String) (ok rs : Bool) (s : UserStore) :
    ((deliverAccessIfNeeded k ok rs s).2).paid = s.paid := by
  unfold deliverAccessIfNeeded
  split_ifs <;> rfl

theorem deliver_branch_paid (c : Prop) [Decidable c] (k : String) (ok rs : Bool) (t : UserStore)
    (h : t.paid = "1") :
    (if c then (deliverAccessIfNeeded k ok rs t).2 else t).paid = "1" := by
  split_ifs
  · rw [deliver_state_paid]
    exact h
  · exact h

theorem deliver_state_pix (k : String) (ok rs : Bool) (s : UserStore) :
    ((deliverAccessIfNeeded k ok rs s).2).pix = s.pix := by
  unfold deliverAccessIfNeeded
  split_ifs <;> rfl

theorem deliver_state_pending (k : String) (ok rs : Bool) (s : UserStore) :
    ((deliverAccessIfNeeded k ok rs s).2).pending = s.pending := by
  unfold deliverAccessIfNeeded
  split_ifs <;> rfl

theorem deliver_state_of_sent_noresend (k : String) (ok : Bool) (s : UserStore)
    (h : s.deliverySent = true) : (deliverAccessIfNeeded k ok false s).2 = s := by
  unfold deliverAccessIfNeeded
  split_ifs <;> simp_all

theorem check_state_cases (gw : Option String) (s : UserStore) :
    (checkPaymentStatus gw s).2 = s ∨
    ∃ n, (checkPaymentStatus gw s).2 = hsetPix (fun d => { d with status := n }) s := by
  cases gw <;>
    · simp only [checkPaymentStatus]
      split_ifs <;> first | exact Or.inl rfl | exact Or.inr ⟨_, rfl⟩

theorem check_state_paid (gw : Option String) (s : UserStore) :
    ((checkPaymentStatus gw s).2).paid = s.paid := by
  rcases check_state_cases gw s with h | ⟨n, h⟩ <;> rw [h] <;> rfl

theorem check_state_pending (gw : Option String) (s : UserStore) :
    ((checkPaymentStatus gw s).2).pending = s.pending := by
  rcases check_state_cases gw s with h | ⟨n, h⟩ <;> rw [h] <;> rfl

theorem check_state_chatId (gw : Option String) (s : UserStore) :
    ((checkPaymentStatus gw s).2).chatId = s.chatId := by
  rcases check_state_cases gw s with h | ⟨n, h⟩ <;> rw [h] <;> rfl

theorem check_state_deliverySent (gw : Option String) (s : UserStore) :
    ((checkPaymentStatus gw s).2).deliverySent = s.deliverySent := by
  rcases check_state_cases gw s with h | ⟨n, h⟩ <;> rw [h] <;> rfl

theorem check_state_accessSends (gw : Option String) (s : UserStore) :
    ((checkPaymentStatus gw s).2).accessSends = s.accessSends := by
  rcases check_state_cases gw s with h | ⟨n, h⟩ <;> rw [h] <;> rfl

theorem check_ok_pix_status (gw : Option String) (s : UserStore)
    (h : (checkPaymentStatus gw s).1 = "OK") :
    pixField (fun d => d.status) ((checkPaymentStatus gw s).2) = "OK" := by
  by_cases h1 : pixField (fun d => d.status) s ≠ "" ∧ pixField (fun d => d.status) s ≠ "PENDING"
  · have he : checkPaymentStatus gw s = (pixField (fun d => d.status) s, s) := by
      simp only [checkPaymentStatus]
      rw [if_pos h1]
    rw [he] at h ⊢
    exact h
  · have hst : pixField (fun d => d.status) s = "" ∨ pixField (fun d => d.status) s = "PENDING" := by
      rcases not_and_or.mp h1 with h2 | h2
      · exact Or.inl (not_not.mp h2)
      · exact Or.inr (not_not.mp h2)
    by_cases h2 : (if pixField (fun d => d.stripe_session_id) s ≠ "" then
        pixField (fun d => d.stripe_session_id) s else pixField (fun d => d.transaction_id) s) = ""
    · have he : checkPaymentStatus gw s = (pixField (fun d => d.status) s, s) := by
        simp only [checkPaymentStatus]
        rw [if_neg h1, if_pos h2]
      rw [he] at h
      rcases hst with h3 | h3 <;> rw [h3] at h <;> simp at h
    · cases gw with
      | none =>
          have he : checkPaymentStatus none s = (pixField (fun d => d.status) s, s) := by
            simp only [checkPaymentStatus]
            rw [if_neg h1, if_neg h2]
          rw [he] at h
          rcases hst with h3 | h3 <;> rw [h3] at h <;> simp at h
      | some raw =>
          by_cases h3 : normalizeGatewayStatus raw ≠ "PENDING"
          · have he : checkPaymentStatus (some raw) s =
                (normalizeGatewayStatus raw,
                  hsetPix (fun d => { d with status := normalizeGatewayStatus raw }) s) := by
              simp only [checkPaymentStatus]
              rw [if_neg h1, if_neg h2, if_pos h3]
            rw [he] at h ⊢
            simp only [pixField, hsetPix]
            simpa using h
          · have he : checkPaymentStatus (some raw) s = (normalizeGatewayStatus raw, s) := by
              simp only [checkPaymentStatus]
              rw [if_neg h1, if_neg h2, if_neg h3]
            rw [he] at h
            rw [not_not.mp h3] at h
            simp at h

theorem pollReconcile_paid_of_ok (gw : Option String) (k : String) (ok : Bool) (s : UserStore)
    (h : (checkPaymentStatus gw s).1 = "OK") : (pollReconcile gw k ok s).paid = "1" := by
  simp only [pollReconcile]
  rw [if_pos h]
  split_ifs with hc
  · rw [deliver_state_paid]
    rfl
  · rfl

theorem pollReconcile_paid_of_not_ok (gw : Option String) (k : String) (ok : Bool) (s : UserStore)
    (h : (checkPaymentStatus gw s).1 ≠ "OK") : (pollReconcile gw k ok s).paid = s.paid := by
  simp only [pollReconcile]
  rw [if_neg h]
  split_ifs with hc
  · rw [check_state_paid]
  · rw [check_state_paid]


theorem stripeReconcile_paid_of_ok (et ps sid eid k : String) (ok : Bool) (s : UserStore)
    (h : stripeEventStatus et ps = "OK") :
    (stripeReconcile et ps sid eid k ok s).paid = "1" := by
  simp only [stripeReconcile]
  rw [if_pos h]
  exact deliver_branch_paid _ k ok true _ rfl

theorem stripeReconcile_paid_of_not_ok (et ps sid eid k : String) (ok : Bool) (s : UserStore)
    (h : stripeEventStatus et ps ≠ "OK") :
    (stripeReconcile et ps sid eid k ok s).paid = s.paid := by
  simp only [stripeReconcile]
  rw [if_neg h]
  split_ifs <;> rfl

theorem mangofyReconcile_paid_of_ok (raw ec pc : String) (s : UserStore)
    (h : mapGatewayStatus raw = "OK") : (mangofyReconcile raw ec pc s).paid = "1" := by
  simp only [mangofyReconcile]
  rw [if_pos h]
  rfl

theorem mangofyReconcile_paid_of_not_ok (raw ec pc : String) (s : UserStore)
    (h : mapGatewayStatus raw ≠ "OK") : (mangofyReconcile raw ec pc s).paid = s.paid := by
  simp only [mangofyReconcile]
  rw [if_neg h]
  split_ifs <;> rfl

theorem recStep_paid_mono (e : RecEvent) (s : UserStore) (h : s.paid = "1") :
    (recStep e s).paid = "1" := by
  cases e with
  | stripe et ps sid eid k ok =>
      by_cases hs : stripeEventStatus et ps = "OK"
      · exact stripeReconcile_paid_of_ok et ps sid eid k ok s hs
      · rw [recStep, stripeReconcile_paid_of_not_ok et ps sid eid k ok s hs, h]
  | mangofy raw ec pc =>
      by_cases hs : mapGatewayStatus raw = "OK"
      · exact mangofyReconcile_paid_of_ok raw ec pc s hs
      · rw [recStep, mangofyReconcile_paid_of_not_ok raw ec pc s hs, h]
  | poll gw k ok =>
      by_cases hs : (checkPaymentStatus gw s).1 = "OK"
      · exact pollReconcile_paid_of_ok gw k ok s hs
      · rw [recStep, pollReconcile_paid_of_not_ok gw k ok s hs, h]

theorem recRun_paid_mono (es : List RecEvent) (s : UserStore) (h : s.paid = "1") :
    (recRun es s).paid = "1" := by
  induction es generalizing s with
  | nil => exact h
  | cons e es ih => exact ih (recStep e s) (recStep_paid_mono e s h)

theorem recStep_paid_of_observesOK (e : RecEvent) (s : UserStore)
    (h : observesOK e s = true) : (recStep e s).paid = "1" := by
  cases e with
  | stripe et ps sid eid k ok =>
      exact stripeReconcile_paid_of_ok et ps sid eid k ok s (by simpa [observesOK] using h)
  | mangofy raw ec pc =>
      exact mangofyReconcile_paid_of_ok raw ec pc s (by simpa [observesOK] using h)
  | poll gw k ok =>
      exact pollReconcile_paid_of_ok gw k ok s (by simpa [observesOK] using h)

theorem pollReconcile_no_resend (gw : Option String) (k : String) (ok : Bool) (s : UserStore)
    (h : s.deliverySent = true) :
    (pollReconcile gw k ok s).accessSends = s.accessSends := by
  have hsent :
      ({ markPaid (checkPaymentStatus gw s).2 with pending := false } : UserStore).deliverySent
        = true := by
    show ((checkPaymentStatus gw s).2).deliverySent = true
    rw [check_state_deliverySent]
    exact h
  simp only [pollReconcile]
  split_ifs with h1 h2 h3
  · rw [deliver_state_of_sent_noresend k ok _ hsent]
    exact check_state_accessSends gw s
  · exact check_state_accessSends gw s
  · exact check_state_accessSends gw s
  · exact check_state_accessSends gw s

theorem check_of_stored_ok (gw : Option String) (s : UserStore)
    (h : pixField (fun d => d.status) s = "OK") : checkPaymentStatus gw s = ("OK", s) := by
  have h1 : pixField (fun d => d.status) s ≠ "" ∧ pixField (fun d => d.status) s ≠ "PENDING" := by
    rw [h]
    exact ⟨by decide, by decide⟩
  simp only [checkPaymentStatus]
  rw [if_pos h1, h]

theorem deliver_branch_pix_status (c : Prop) [Decidable c] (k : String) (ok rs : Bool)
    (t : UserStore) (h : pixField (fun d => d.status) t = "OK") :
    pixField (fun d => d.status) (if c then (deliverAccessIfNeeded k ok rs t).2 else t) = "OK" := by
  split_ifs
  · simp only [pixField, deliver_state_pix]
    exact h
  · exact h

theorem pollReconcile_status_of_stored_ok (gw : Option String) (k : String) (ok : Bool)
    (s : UserStore) (h : pixField (fun d => d.status) s = "OK") :
    pixField (fun d => d.status) (pollReconcile gw k ok s) = "OK" := by
  have he := check_of_stored_ok gw s h
  simp only [pollReconcile, he]
  rw [if_pos trivial]
  exact deliver_branch_pix_status _ k ok false _ h

theorem recStep_status_of_observesOK (e : RecEvent) (s : UserStore)
    (h : observesOK e s = true) :
    pixField (fun d => d.status) (recStep e s) = "OK" := by
  cases e with
  | stripe et ps sid eid k ok =>
      have hs : stripeEventStatus et ps = "OK" := by simpa [observesOK] using h
      show pixField (fun d => d.status) (stripeReconcile et ps sid eid k ok s) = "OK"
      simp only [stripeReconcile]
      rw [if_pos hs]
      exact deliver_branch_pix_status _ k ok true _ rfl
  | mangofy raw ec pc =>
      have hs : mapGatewayStatus raw = "OK" := by simpa [observesOK] using h
      show pixField (fun d => d.status) (mangofyReconcile raw ec pc s) = "OK"
      simp only [mangofyReconcile]
      rw [if_pos hs]
      rfl
  | poll gw k ok =>
      have h1 : (checkPaymentStatus gw s).1 = "OK" := by simpa [observesOK] using h
      show pixField (fun d => d.status) (pollReconcile gw k ok s) = "OK"
      simp only [pollReconcile]
      rw [if_pos h1]
      exact deliver_branch_pix_status _ k ok false _ (check_ok_pix_status gw s h1)

/-! The claims. -/

/-- C1: counterexample.  The claim says that once a reconciliation path has
observed `OK`, a later `OK` observation never re-triggers the
access-delivery notification.  On the code this fails for the Stripe
webhook path: it calls `deliver_access_if_needed` with the default
`resend_if_sent=True`, so a duplicate `checkout.session.completed` webhook
sends the access message a second time — here two Stripe `OK` events take
the ghost send counter from 1 to 2, the second event observing `OK` on a
subject already marked paid and delivered. -/
theorem stripe_webhook_redelivers_on_repeated_ok :
    (recRun [RecEvent.stripe "checkout.session.completed" "paid" "cs_1" "ev_1" "k1" true]
        (freshUser "111" "botA")).accessSends = 1
  ∧ observesOK (RecEvent.stripe "checkout.session.completed" "paid" "cs_1" "ev_1" "k2" true)
      (recRun [RecEvent.stripe "checkout.session.completed" "paid" "cs_1" "ev_1" "k1" true]
        (freshUser "111" "botA")) = true
  ∧ (recRun [RecEvent.stripe "checkout.session.completed" "paid" "cs_1" "ev_1" "k1" true,
        RecEvent.stripe "checkout.session.completed" "paid" "cs_1" "ev_1" "k2" true]
        (freshUser "111" "botA")).accessSends = 2 := by
  decide

/-- C1 (amended): once any reconciliation path observes normalized status
`OK`, the subject's paid flag is set to `"1"` and remains `"1"` under all
subsequent reconciliation calls regardless of their order or observed
statuses; the poll path never re-triggers the access-delivery notification
once the delivery record is marked sent (it passes
`resend_if_sent=False`), but the Stripe webhook path re-sends on each
`OK` observation because it uses the default `resend_if_sent=True`. -/
theorem reconcile_paid_monotone_and_poll_no_redeliver :
    (∀ e s, observesOK e s = true → (recStep e s).paid = "1")
  ∧ (∀ es s, s.paid = "1" → (recRun es s).paid = "1")
  ∧ (∀ gw k ok s, s.deliverySent = true →
      (recStep (RecEvent.poll gw k ok) s).accessSends = s.accessSends) :=
  ⟨recStep_paid_of_observesOK, recRun_paid_mono,
   fun gw k ok s h => pollReconcile_no_resend gw k ok s h⟩

/-- C1 witness: the amended theorem applied at concrete inputs — a Mangofy
`approved` observation marks paid; a later `pending` poll leaves the flag;
a poll against an already-sent delivery record does not send again. -/
theorem reconcile_paid_monotone_witness :
    (recStep (RecEvent.mangofy "approved" "" "") (freshUser "5" "b")).paid = "1"
  ∧ (recRun [RecEvent.mangofy "pending" "" ""] (markPaid (freshUser "5" "b"))).paid = "1"
  ∧ (recStep (RecEvent.poll none "k" true)
        { freshUser "5" "b" with deliverySent := true }).accessSends =
      ({ freshUser "5" "b" with deliverySent := true } : UserStore).accessSends :=
  ⟨reconcile_paid_monotone_and_poll_no_redeliver.1 _ _ (by decide),
   reconcile_paid_monotone_and_poll_no_redeliver.2.1 _ _ (by decide),
   reconcile_paid_monotone_and_poll_no_redeliver.2.2 none "k" true _ (by decide)⟩

/-- C5: counterexample.  The claim says the stored status field is never
overwritten with a non-`OK` value once `OK` has been recorded.  On the
code this fails for the webhook handlers, which `hset` the newly observed
normalized status unconditionally before branching: here a subject whose
pix record says `OK` receives a Mangofy callback with `payment_status`
`"pending"`, and the stored status is downgraded to `PENDING`. -/
theorem mangofy_pending_downgrades_ok_status :
    pixField (fun d => d.status) (markPaymentConfirmed (freshUser "42" "b")) = "OK"
  ∧ pixField (fun d => d.status)
      (recStep (RecEvent.mangofy "pending" "" "")
        (markPaymentConfirmed (freshUser "42" "b"))) = "PENDING" := by
  decide

/-- C5 (amended): the stored status is monotone on the poll path — once
the pix record says `OK`, `check_payment_status` returns `OK` without
touching the record and the poll reconciliation keeps it `OK` — and every
reconciliation call that observes `OK` leaves the stored status `OK`; the
webhook handlers, however, overwrite the stored status unconditionally
with each newly observed normalized status, so a later `PENDING` or
terminal webhook observation downgrades it. -/
theorem pix_status_monotone_poll_path :
    (∀ gw s, pixField (fun d => d.status) s = "OK" → checkPaymentStatus gw s = ("OK", s))
  ∧ (∀ gw k ok s, pixField (fun d => d.status) s = "OK" →
      pixField (fun d => d.status) (pollReconcile gw k ok s) = "OK")
  ∧ (∀ e s, observesOK e s = true →
      pixField (fun d => d.status) (recStep e s) = "OK") :=
  ⟨check_of_stored_ok, pollReconcile_status_of_stored_ok, recStep_status_of_observesOK⟩

/-- C5 witness: the amended theorem applied at concrete inputs — a
recorded `OK` survives a gateway poll that answers `unpaid`, and a Stripe
`OK` observation records `OK`. -/
theorem pix_status_monotone_witness :
    checkPaymentStatus (some "unpaid") (markPaymentConfirmed (freshUser "9" "b")) =
      ("OK", markPaymentConfirmed (freshUser "9" "b"))
  ∧ pixField (fun d => d.status)
      (pollReconcile (some "unpaid") "k" true (markPaymentConfirmed (freshUser "9" "b"))) = "OK"
  ∧ pixField (fun d => d.status)
      (recStep (RecEvent.stripe "checkout.session.completed" "paid" "cs" "ev" "k" true)
        (freshUser "9" "b")) = "OK" :=
  ⟨pix_status_monotone_poll_path.1 _ _ (by decide),
   pix_status_monotone_poll_path.2.1 _ "k" true _ (by decide),
   pix_status_monotone_poll_path.2.2 _ _ (by decide)⟩

/-- C6: whenever a reconciliation path observes a normalized
terminal-failure status (neither `OK` nor `PENDING`/`WAITING_PAYMENT`),
the subject is removed from the pending-payment set and the paid flag is
left exactly as it was, on all three paths. -/
theorem terminal_failure_unpends_without_paid :
    (∀ et ps sid eid k ok s, stripeEventStatus et ps ≠ "OK" →
        stripeEventStatus et ps ≠ "PENDING" → stripeEventStatus et ps ≠ "WAITING_PAYMENT" →
        (stripeReconcile et ps sid eid k ok s).pending = false ∧
        (stripeReconcile et ps sid eid k ok s).paid = s.paid)
  ∧ (∀ raw ec pc s, mapGatewayStatus raw ≠ "OK" → mapGatewayStatus raw ≠ "PENDING" →
        (mangofyReconcile raw ec pc s).pending = false ∧
        (mangofyReconcile raw ec pc s).paid = s.paid)
  ∧ (∀ gw k ok s, (checkPaymentStatus gw s).1 ≠ "OK" → (checkPaymentStatus gw s).1 ≠ "" →
        (checkPaymentStatus gw s).1 ≠ "PENDING" →
        (checkPaymentStatus gw s).1 ≠ "WAITING_PAYMENT" →
        (pollReconcile gw k ok s).pending = false ∧
        (pollReconcile gw k ok s).paid = s.paid) := by
  refine ⟨?_, ?_, ?_⟩
  · intro et ps sid eid k ok s h1 h2 h3
    refine ⟨?_, stripeReconcile_paid_of_not_ok et ps sid eid k ok s h1⟩
    simp only [stripeReconcile]
    rw [if_neg h1, if_neg (not_or.mpr ⟨h2, h3⟩)]
  · intro raw ec pc s h1 h2
    refine ⟨?_, mangofyReconcile_paid_of_not_ok raw ec pc s h1⟩
    simp only [mangofyReconcile]
    rw [if_neg h1, if_neg h2]
  · intro gw k ok s h1 h2 h3 h4
    constructor
    · simp only [pollReconcile]
      rw [if_neg h1, if_pos ⟨h2, h3, h4⟩]
    · exact pollReconcile_paid_of_not_ok gw k ok s h1

/-- C6 witness: the theorem applied at concrete terminal observations —
an expired Stripe session, a refunded Mangofy payment, and a poll that
finds a stored `FAILED` status, each on a subject currently in the
pending set and unpaid. -/
theorem terminal_failure_unpends_witness :
    ((stripeReconcile "checkout.session.expired" "unpaid" "cs" "ev" "k" true
        { freshUser "7" "b" with pending := true }).pending = false ∧
      (stripeReconcile "checkout.session.expired" "unpaid" "cs" "ev" "k" true
        { freshUser "7" "b" with pending := true }).paid =
        ({ freshUser "7" "b" with pending := true } : UserStore).paid)
  ∧ ((mangofyReconcile "refunded" "" "" { freshUser "7" "b" with pending := true }).pending = false ∧
      (mangofyReconcile "refunded" "" "" { freshUser "7" "b" with pending := true }).paid =
        ({ freshUser "7" "b" with pending := true } : UserStore).paid)
  ∧ ((pollReconcile none "k" true
        (hsetPix (fun d => { d with status := "FAILED" })
          { freshUser "7" "b" with pending := true })).pending = false ∧
      (pollReconcile none "k" true
        (hsetPix (fun d => { d with status := "FAILED" })
          { freshUser "7" "b" with pending := true })).paid =
        (hsetPix (fun d => { d with status := "FAILED" })
          { freshUser "7" "b" with pending := true }).paid) :=
  ⟨terminal_failure_unpends_without_paid.1 _ _ _ _ _ true _
      (by decide) (by decide) (by decide),
   terminal_failure_unpends_without_paid.2.1 _ _ _ _ (by decide) (by decide),
   terminal_failure_unpends_without_paid.2.2 none "k" true _
      (by decide) (by decide) (by decide) (by decide)⟩

/-- C9: `deliver_access_if_needed` called twice in a row for a subject
with a chat id, with `resend_if_sent=False` and no prior delivery record,
sends exactly once: the first call sends (the ghost counter increases by
one), stores the freshly minted key, and returns `(True, key)`; the
second call is a no-op on the store and returns `(False, key)` with the
same previously issued key. -/
theorem deliver_access_twice_sends_once (s : UserStore) (k1 k2 : String)
    (hchat : s.chatId ≠ "") (hkey : s.deliveryKey = "") (hsent : s.deliverySent = false)
    (hk1 : k1 ≠ "") :
    ∃ s1, deliverAccessIfNeeded k1 true false s = (.ok (true, k1), s1)
      ∧ deliverAccessIfNeeded k2 true false s1 = (.ok (false, k1), s1)
      ∧ s1.accessSends = s.accessSends + 1 := by
  use { s with deliveryKey := k1, deliverySent := true, accessSends := s.accessSends + 1 }
  refine ⟨?_, ?_, rfl⟩
  · simp [deliverAccessIfNeeded, hchat, hkey, hsent]
  · simp [deliverAccessIfNeeded, hchat, hk1]

/-- C9 witness: the theorem applied to a fresh paid subject with chat id
`"9"` and minted key `"KEY1"`. -/
theorem deliver_access_twice_witness :
    ∃ s1, deliverAccessIfNeeded "KEY1" true false (markPaid (freshUser "9" "b")) =
        (.ok (true, "KEY1"), s1)
      ∧ deliverAccessIfNeeded "KEY2" true false s1 = (.ok (false, "KEY1"), s1)
      ∧ s1.accessSends = (markPaid (freshUser "9" "b")).accessSends + 1 :=
  deliver_access_twice_sends_once (markPaid (freshUser "9" "b")) "KEY1" "KEY2"
    (by decide) (by decide) (by decide) (by decide)

theorem sendNextFollowup_fires_invariant (g : String) (out : SendOutcome) (s : UserStore)
    (h1 : s.followupFires ≤ 1)
    (h2 : s.followupFires = 1 →
      (parseIntStr s.followupIdx).getD 0 ≥ 1 ∨ s.blocked = true) :
    ((sendNextFollowup g out s).2).followupFires ≤ 1 ∧
    (((sendNextFollowup g out s).2).followupFires = 1 →
      (parseIntStr ((sendNextFollowup g out s).2).followupIdx).getD 0 ≥ 1 ∨
      ((sendNextFollowup g out s).2).blocked = true) := by
  unfold sendNextFollowup
  split_ifs with g1 g2 g3 g4 g5
  · exact ⟨h1, h2⟩
  · exact ⟨h1, h2⟩
  · exact ⟨h1, h2⟩
  · exact ⟨h1, h2⟩
  · exact ⟨h1, h2⟩
  · have hf0 : s.followupFires = 0 := by
      by_cases hf : s.followupFires = 1
      · rcases h2 hf with hg | hg
        · exact absurd hg g5
        · exact absurd (Or.inr hg) g1
      · omega
    cases out with
    | forbidden =>
        constructor
        · show s.followupFires + 1 ≤ 1
          omega
        · intro _
          exact Or.inr rfl
    | delivered =>
        constructor
        · show s.followupFires + 1 ≤ 1
          omega
        · intro _
          have hp : (parseIntStr "1").getD 0 ≥ 1 := by decide
          exact Or.inl hp
    | failedOther =>
        constructor
        · show s.followupFires + 1 ≤ 1
          omega
        · intro _
          have hp : (parseIntStr "1").getD 0 ≥ 1 := by decide
          exact Or.inl hp

theorem campaignStep_fires_invariant (g : String) (op : CampaignOp) (s : UserStore)
    (h1 : s.followupFires ≤ 1)
    (h2 : s.followupFires = 1 →
      (parseIntStr s.followupIdx).getD 0 ≥ 1 ∨ s.blocked = true) :
    (campaignStep g op s).followupFires ≤ 1 ∧
    ((campaignStep g op s).followupFires = 1 →
      (parseIntStr (campaignStep g op s).followupIdx).getD 0 ≥ 1 ∨
      (campaignStep g op s).blocked = true) := by
  cases op with
  | schedule now delay => exact ⟨h1, h2⟩
  | poll now out =>
      cases hdue : s.due with
      | none =>
          simp only [campaignStep, hdue]
          exact ⟨h1, h2⟩
      | some t =>
          simp only [campaignStep, hdue]
          split_ifs with hr
          · exact sendNextFollowup_fires_invariant g out { s with due := none } h1 h2
          · exact ⟨h1, h2⟩

theorem campaignRun_fires_invariant (g : String) (ops : List CampaignOp) (s : UserStore)
    (h1 : s.followupFires ≤ 1)
    (h2 : s.followupFires = 1 →
      (parseIntStr s.followupIdx).getD 0 ≥ 1 ∨ s.blocked = true) :
    (campaignRun g ops s).followupFires ≤ 1 := by
  induction ops generalizing s with
  | nil => exact h1
  | cons op ops ih =>
      have hstep := campaignStep_fires_invariant g op s h1 h2
      exact ih (campaignStep g op s) hstep.1 hstep.2

/-- C2: for any subject starting fresh, any interleaving of
`schedule_next_followup` calls and `campaign_due_loop` poll cycles fires
the one-shot followup at most once; once `followup_idx ≥ 1`,
`send_next_followup` removes the subject's due entry and returns `False`
without sending; the explicit reset is `mark_unpaid` with
`reset_cycle=True`, which sets `followup_idx` back to `"0"` and
unschedules. -/
theorem followup_at_most_one_firing (globalBotId chatId : String) (ops : List CampaignOp) :
    (campaignRun globalBotId ops (freshUser chatId globalBotId)).followupFires ≤ 1
  ∧ (∀ out s, ¬(isPaid s = true ∨ s.blocked = true) → s.chatId ≠ "" →
      ¬(s.botId ≠ "" ∧ globalBotId ≠ "" ∧ s.botId ≠ globalBotId) → s.botId ≠ "" →
      (parseIntStr s.followupIdx).getD 0 ≥ 1 →
      sendNextFollowup globalBotId out s = (false, { s with due := none }))
  ∧ (∀ c s, (markUnpaid globalBotId c true s).followupIdx = "0" ∧
      (markUnpaid globalBotId c true s).due = none) := by
  refine ⟨?_, ?_, ?_⟩
  · have hle : (freshUser chatId globalBotId).followupFires ≤ 1 := by
      show (0 : Nat) ≤ 1
      decide
    have hne : ¬(freshUser chatId globalBotId).followupFires = 1 := by
      show ¬(0 : Nat) = 1
      decide
    exact campaignRun_fires_invariant globalBotId ops (freshUser chatId globalBotId)
      hle (fun h => absurd h hne)
  · intro out s hg1 hg2 hg3 hg4 hg5
    unfold sendNextFollowup
    rw [if_neg hg1, if_neg (by simpa using hg2), if_neg hg3, if_neg hg4, if_pos hg5]
  · intro c s
    exact ⟨rfl, rfl⟩

/-- C2 witness: the theorem applied at concrete inputs — a schedule, an
on-time poll cycle (which fires) and a second poll after rescheduling
(which does not), and a guarded `send_next_followup` on a subject with
`followup_idx = "1"`. -/
theorem followup_at_most_one_firing_witness :
    (campaignRun "b" [CampaignOp.schedule 0 360, CampaignOp.poll 400 SendOutcome.delivered,
        CampaignOp.schedule 400 360, CampaignOp.poll 800 SendOutcome.delivered]
      (freshUser "c" "b")).followupFires ≤ 1
  ∧ sendNextFollowup "b" SendOutcome.delivered
      ({ freshUser "c" "b" with followupIdx := "1", due := some 5 } : UserStore) =
      (false, { ({ freshUser "c" "b" with followupIdx := "1", due := some 5 } : UserStore)
                  with due := none }) :=
  ⟨(followup_at_most_one_firing "b" "c" _).1,
   (followup_at_most_one_firing "b" "c" []).2.1 SendOutcome.delivered _
      (by decide) (by decide) (by decide) (by decide) (by decide)⟩

theorem dispatch_sum_preserved (s s2 : DispatchState) (h : DispatchStep s s2) :
    s2.available + s2.inflight = s.available + s.inflight := by
  cases h with
  | pop r rest h1 h2 => rfl
  | popTimeout h1 h2 => rfl
  | acquireSpawn r h1 h2 =>
      show s.available - 1 + (s.inflight + 1) = s.available + s.inflight
      omega
  | finish hok h1 =>
      show s.available + 1 + (s.inflight - 1) = s.available + s.inflight
      omega

theorem dispatch_reachable_sum (cfg : Nat) (q : List String) (s : DispatchState)
    (h : Relation.ReflTransGen DispatchStep (initialDispatch cfg q) s) :
    s.available + s.inflight = max 1 cfg := by
  induction h with
  | refl => rfl
  | tail h1 h2 ih => rw [dispatch_sum_preserved _ _ h2, ih]

/-- C3: in every state the dispatch loop of `run_worker` can reach, the
number of in-flight `process_update` tasks never exceeds the configured
maximum concurrency: a semaphore slot is acquired before each spawn (the
`acquireSpawn` step requires and consumes a free slot, and the loop holds
at most one popped item while waiting), and each task releases its slot on
completion whether the handler succeeded or raised (the `finish` step). -/
theorem dispatch_inflight_bounded (maxConcurrentUpdates : Nat) (q : List String)
    (s : DispatchState) (hcfg : 1 ≤ maxConcurrentUpdates)
    (h : Relation.ReflTransGen DispatchStep (initialDispatch maxConcurrentUpdates q) s) :
    s.inflight ≤ maxConcurrentUpdates := by
  have hsum := dispatch_reachable_sum maxConcurrentUpdates q s h
  have hmax : max 1 maxConcurrentUpdates = maxConcurrentUpdates := Nat.max_eq_right hcfg
  omega

/-- C3 witness: the theorem applied to the default configuration
(`WORKER_MAX_CONCURRENT_UPDATES = 100`) after popping and dispatching one
queued update. -/
theorem dispatch_inflight_bounded_witness :
    ({ queue := [], held := none, available := 99, inflight := 1 } : DispatchState).inflight
      ≤ 100 :=
  dispatch_inflight_bounded 100 ["u1"] _ (by decide)
    (Relation.ReflTransGen.tail
      (Relation.ReflTransGen.tail Relation.ReflTransGen.refl
        (DispatchStep.pop _ "u1" [] rfl rfl))
      (DispatchStep.acquireSpawn _ "u1" rfl (by decide)))

theorem zsetLookup_eq_none_iff (z : List (String × Int)) (v : String) :
    zsetLookup z v = none ↔ ∀ x ∈ z, x.1 ≠ v := by
  unfold zsetLookup
  rw [Option.map_eq_none', List.find?_eq_none]
  constructor
  · intro h x hx
    simpa using h x hx
  · intro h x hx
    simpa using h x hx

theorem zsetLookup_zremUid_self (z : List (String × Int)) (u : String) :
    zsetLookup (zremUid z u) u = none := by
  rw [zsetLookup_eq_none_iff]
  intro x hx
  simpa using (List.mem_filter.mp hx).2

theorem zsetLookup_zremUid_none (z : List (String × Int)) (u v : String)
    (h : zsetLookup z v = none) : zsetLookup (zremUid z u) v = none := by
  rw [zsetLookup_eq_none_iff] at h ⊢
  intro x hx
  exact h x (List.mem_filter.mp hx).1

theorem processSelected_preserves_none
    (eff : String → List (String × Int) → List (String × Int))
    (hNoAdd : ∀ u zz v, zsetLookup zz v = none → zsetLookup (eff u zz) v = none)
    (ps : List (String × Int)) (z : List (String × Int)) (v : String)
    (h : zsetLookup z v = none) :
    zsetLookup (processSelected eff ps z).1 v = none := by
  induction ps generalizing z with
  | nil => exact h
  | cons p ps ih =>
      show zsetLookup (processSelected eff ps (eff p.1 (zremUid z p.1))).1 v = none
      exact ih _ (hNoAdd p.1 _ v (zsetLookup_zremUid_none z p.1 v h))

theorem processSelected_final_none
    (eff : String → List (String × Int) → List (String × Int))
    (hNoAdd : ∀ u zz v, zsetLookup zz v = none → zsetLookup (eff u zz) v = none)
    (ps : List (String × Int)) (z : List (String × Int)) :
    ∀ p ∈ ps, zsetLookup (processSelected eff ps z).1 p.1 = none := by
  induction ps generalizing z with
  | nil =>
      intro p hp
      cases hp
  | cons q ps ih =>
      intro p hp
      rcases List.mem_cons.mp hp with rfl | hp
      · show zsetLookup (processSelected eff ps (eff p.1 (zremUid z p.1))).1 p.1 = none
        exact processSelected_preserves_none eff hNoAdd ps _ p.1
          (hNoAdd p.1 _ p.1 (zsetLookup_zremUid_self z p.1))
      · exact ih _ p hp

theorem processSelected_log_removed
    (eff : String → List (String × Int) → List (String × Int))
    (ps : List (String × Int)) (z : List (String × Int)) :
    ∀ q ∈ (processSelected eff ps z).2, zsetLookup q.2 q.1 = none := by
  induction ps generalizing z with
  | nil =>
      intro q hq
      cases hq
  | cons p ps ih =>
      intro q hq
      rcases List.mem_cons.mp hq with rfl | hq
      · exact zsetLookup_zremUid_self z p.1
      · exact ih _ q hq

/-- C4: each `campaign_due_loop` cycle selects only entries whose score is
due (between 0 and `now`), in a bounded batch of at most 50 in
non-decreasing score order; each selected entry is removed from the due
zset before its followup action is invoked (the invocation log records
the zset at invocation time); and the entries stay removed at the end of
the cycle no matter what the action does to the zset, provided only that
the action never adds entries — `send_next_followup` only ever removes
its own member, so the failure path does not reschedule. -/
theorem due_cycle_selection_and_removal
    (actionEffect : String → List (String × Int) → List (String × Int))
    (hNoAdd : ∀ u zz v, zsetLookup zz v = none → zsetLookup (actionEffect u zz) v = none)
    (now : Int) (z : List (String × Int)) :
    (∀ p ∈ zrangebyscoreLimit z 0 now 50, 0 ≤ p.2 ∧ p.2 ≤ now)
  ∧ (zrangebyscoreLimit z 0 now 50).length ≤ 50
  ∧ List.Sorted scoreLE (zrangebyscoreLimit z 0 now 50)
  ∧ (∀ q ∈ (runDueCycle actionEffect now z).2, zsetLookup q.2 q.1 = none)
  ∧ (∀ p ∈ zrangebyscoreLimit z 0 now 50,
      zsetLookup (runDueCycle actionEffect now z).1 p.1 = none) := by
  refine ⟨?_, ?_, ?_, ?_, ?_⟩
  · intro p hp
    unfold zrangebyscoreLimit at hp
    have h1 : p ∈ (z.filter (fun p => 0 ≤ p.2 ∧ p.2 ≤ now)).insertionSort scoreLE :=
      (List.take_sublist 50 _).subset hp
    have h2 : p ∈ z.filter (fun p => 0 ≤ p.2 ∧ p.2 ≤ now) :=
      (List.perm_insertionSort scoreLE _).mem_iff.mp h1
    simpa using (List.mem_filter.mp h2).2
  · exact List.length_take_le 50 _
  · exact List.Pairwise.sublist (List.take_sublist 50 _)
      (List.sorted_insertionSort scoreLE _)
  · exact processSelected_log_removed actionEffect _ z
  · exact processSelected_final_none actionEffect hNoAdd _ z

/-- C4 witness: the theorem applied to a concrete zset at `now = 10` with
`send_next_followup`'s own zset effect (removing its member): the entry
scored 5 is selected and due, and it is gone from the final zset. -/
theorem due_cycle_witness :
    (0 ≤ (("7", 5) : String × Int).2 ∧ (("7", 5) : String × Int).2 ≤ 10)
  ∧ zsetLookup (runDueCycle (fun u zz => zremUid zz u) 10 [("7", 5), ("8", 100)]).1 "7"
      = none :=
  ⟨(due_cycle_selection_and_removal (fun u zz => zremUid zz u)
      (fun u zz v h => zsetLookup_zremUid_none zz u v h) 10 [("7", 5), ("8", 100)]).1
      ("7", 5) (by decide),
   (due_cycle_selection_and_removal (fun u zz => zremUid zz u)
      (fun u zz v h => zsetLookup_zremUid_none zz u v h) 10 [("7", 5), ("8", 100)]).2.2.2.2
      ("7", 5) (by decide)⟩

theorem deliveryAttempts_le (m : Nat) (os : List Bool) :
    ∀ a, a ≤ m → deliveryAttempts m os a ≤ m + 1 - a := by
  induction os with
  | nil =>
      intro a ha
      show (0 : Nat) ≤ m + 1 - a
      omega
  | cons o os ih =>
      intro a ha
      simp only [deliveryAttempts]
      cases o with
      | true =>
          rw [show drainItemStep m true a = none from rfl]
          show 1 + 0 ≤ m + 1 - a
          omega
      | false =>
          by_cases hlt : a < m
          · rw [show drainItemStep m false a = some (a + 1) from by
              simp [drainItemStep, retryAfterFailure, hlt]]
            show 1 + deliveryAttempts m os (a + 1) ≤ m + 1 - a
            have h2 := ih (a + 1) (by omega)
            omega
          · rw [show drainItemStep m false a = none from by
              simp [drainItemStep, retryAfterFailure, hlt]]
            show 1 + 0 ≤ m + 1 - a
            omega

/-- C7: every item enters the UTMify retry queue with `attempt = 1`; on a
failed delivery the drain loop re-enqueues it with `attempt + 1` exactly
when `attempt < max_attempts` and otherwise drops it, so the attempt
counter only increases; and across any sequence of drain outcomes an
item is attempted at most `max_attempts = 3` times. -/
theorem utmify_retry_cap :
    utmifyRetryInitialAttempt = 1
  ∧ (∀ ok a a2, drainItemStep utmifyMaxAttempts ok a = some a2 → a2 = a + 1)
  ∧ (∀ os : List Bool,
      deliveryAttempts utmifyMaxAttempts os utmifyRetryInitialAttempt ≤ utmifyMaxAttempts) := by
  refine ⟨rfl, ?_, ?_⟩
  · intro ok a a2 h
    cases ok with
    | true => simp [drainItemStep] at h
    | false =>
        have h2 : retryAfterFailure utmifyMaxAttempts a = some a2 := h
        unfold retryAfterFailure at h2
        split_ifs at h2 with hlt
        exact (Option.some.inj h2).symm
  · intro os
    have h := deliveryAttempts_le utmifyMaxAttempts os 1 (by decide)
    show deliveryAttempts utmifyMaxAttempts os 1 ≤ 3
    have h3 : utmifyMaxAttempts = 3 := rfl
    omega

/-- C7 witness: the theorem applied to a lineage of four straight
failures (the fourth drain never happens: the item is dropped at its
third attempt), and to the re-enqueue step at `attempt = 1`. -/
theorem utmify_retry_cap_witness :
    deliveryAttempts utmifyMaxAttempts [false, false, false, false] utmifyRetryInitialAttempt
      ≤ utmifyMaxAttempts
  ∧ (2 : Nat) = 1 + 1 :=
  ⟨utmify_retry_cap.2.2 [false, false, false, false],
   utmify_retry_cap.2.1 false 1 2 (by decide)⟩

/-- C8: when a webhook secret is configured and the `Stripe-Signature`
header parses to non-empty `t` and `v1` parts, `_verify_stripe_signature`
accepts the request exactly when the HMAC-SHA256 hex digest of
`"{timestamp}.{rawBody}"` under the secret equals the supplied `v1`
(`hmac.compare_digest` modelled by its functional content); and every
request whose signature verifies is answered with `ok=True`, even when
the handler body raises. -/
theorem stripe_signature_scheme_and_ack :
    (∀ (secret : String) (hm : String → String → String) (body sig t v1 : String),
        secret ≠ "" → sig ≠ "" →
        dictGet (sigParts sig) "t" = some t → t ≠ "" →
        dictGet (sigParts sig) "v1" = some v1 → v1 ≠ "" →
        verifyStripeSignature secret hm body sig = (hm secret (t ++ "." ++ body) == v1))
  ∧ (∀ (secret : String) (hm : String → String → String) (body sig : String)
        (proc : WebhookOutcome),
        verifyStripeSignature secret hm body sig = true →
        stripeWebhookResponseOk secret hm body sig proc = true) := by
  constructor
  · intro secret hm body sig t v1 hs hsig ht htne hv hvne
    unfold verifyStripeSignature
    rw [if_neg hs, if_neg hsig]
    simp only [ht, hv, Option.getD_some]
    rw [if_neg (not_or.mpr ⟨htne, hvne⟩)]
  · intro secret hm body sig proc h
    unfold stripeWebhookResponseOk
    rw [if_pos h]
    cases proc <;> rfl

/-- C8 witness: the theorem applied to a concrete request whose header
carries a timestamp and the matching digest (with a mock digest
function), and to the handler acknowledging a verified request whose
processing raises. -/
theorem stripe_signature_witness :
    verifyStripeSignature "whsec" (fun a b => a ++ "|" ++ b) "BODY"
        "t=123, v1=whsec|123.BODY"
      = ((fun a b => a ++ "|" ++ b) "whsec" ("123" ++ "." ++ "BODY") == "whsec|123.BODY")
  ∧ stripeWebhookResponseOk "whsec" (fun a b => a ++ "|" ++ b) "BODY"
        "t=123, v1=whsec|123.BODY" (WebhookOutcome.raised "boom") = true :=
  ⟨stripe_signature_scheme_and_ack.1 "whsec" (fun a b => a ++ "|" ++ b) "BODY"
      "t=123, v1=whsec|123.BODY" "123" "whsec|123.BODY"
      (by decide) (by decide) (by decide) (by decide) (by decide) (by decide),
   stripe_signature_scheme_and_ack.2 "whsec" (fun a b => a ++ "|" ++ b) "BODY"
      "t=123, v1=whsec|123.BODY" (WebhookOutcome.raised "boom") (by decide)⟩

/-- C10: `get_reusable_pending_pix` never consults its `amount` argument;
for a stored record whose (uppercased) status is empty, `PENDING` or
`WAITING_PAYMENT`, whose resolved checkout URL (`checkout_url`, falling
back to the legacy `pix_code` alias) is non-empty, and whose age
`now - created_at` is within `max_age_seconds`, it returns the stored
checkout (same resolved code, identifier, and checkout URL); and it
returns `None` when the status is any other value, when the checkout URL
is missing, when `created_at` is unparseable, when the age exceeds the
window, and when `created_at` is missing (it then reads as `"0"`, which
counts as expired whenever `now` exceeds `max_age_seconds`, i.e. for any
realistic clock). -/
theorem reusable_pix_amount_blind_freshness :
    (∀ (now maxAge a1 a2 : Int) (pix : Option PixRecord),
        getReusablePendingPix now a1 maxAge pix = getReusablePendingPix now a2 maxAge pix)
  ∧ (∀ (now amount maxAge c : Int) (d : PixRecord),
      (asciiUpper d.status = "" ∨ asciiUpper d.status = "PENDING" ∨
        asciiUpper d.status = "WAITING_PAYMENT") →
      (if d.checkout_url ≠ "" then d.checkout_url else d.pix_code) ≠ "" →
      parseIntStr (if d.created_at = "" then "0" else d.created_at) = some c →
      now - c ≤ maxAge →
      getReusablePendingPix now amount maxAge (some d) =
        some { code := if d.checkout_url ≠ "" then d.checkout_url else d.pix_code,
               transactionId := if d.transaction_id ≠ "" then d.transaction_id
                 else d.payment_code,
               status := if asciiUpper d.status ≠ "" then asciiUpper d.status else "PENDING",
               qr_image := d.qr_image, qr_base64 := d.qr_base64,
               identifier := d.identifier, payment_code := d.payment_code,
               checkout_url := if d.checkout_url ≠ "" then d.checkout_url else d.pix_code,
               reused := true })
  ∧ (∀ (now amount maxAge : Int) (d : PixRecord),
      ¬(asciiUpper d.status = "" ∨ asciiUpper d.status = "PENDING" ∨
          asciiUpper d.status = "WAITING_PAYMENT") →
      getReusablePendingPix now amount maxAge (some d) = none)
  ∧ (∀ (now amount maxAge : Int) (d : PixRecord),
      (if d.checkout_url ≠ "" then d.checkout_url else d.pix_code) = "" →
      getReusablePendingPix now amount maxAge (some d) = none)
  ∧ (∀ (now amount maxAge : Int) (d : PixRecord),
      parseIntStr (if d.created_at = "" then "0" else d.created_at) = none →
      getReusablePendingPix now amount maxAge (some d) = none)
  ∧ (∀ (now amount maxAge c : Int) (d : PixRecord),
      parseIntStr (if d.created_at = "" then "0" else d.created_at) = some c →
      now - c > maxAge →
      getReusablePendingPix now amount maxAge (some d) = none)
  ∧ (∀ (now amount maxAge : Int) (d : PixRecord),
      d.created_at = "" → now > maxAge →
      getReusablePendingPix now amount maxAge (some d) = none) := by
  refine ⟨fun now maxAge a1 a2 pix => rfl, ?_, ?_, ?_, ?_, ?_, ?_⟩
  · intro now amount maxAge c d h1 h2 h3 h4
    simp only [getReusablePendingPix]
    rw [if_neg (not_not_intro h1), if_neg h2]
    have hage : (match parseIntStr (if d.created_at = "" then "0" else d.created_at) with
        | some c => now - c
        | none => maxAge + 1) = now - c := by
      rw [h3]
    rw [hage, if_neg (not_lt.mpr h4)]
  · intro now amount maxAge d h1
    simp only [getReusablePendingPix]
    rw [if_pos h1]
  · intro now amount maxAge d h2
    simp only [getReusablePendingPix]
    by_cases h1 : ¬(asciiUpper d.status = "" ∨ asciiUpper d.status = "PENDING" ∨
        asciiUpper d.status = "WAITING_PAYMENT")
    · rw [if_pos h1]
    · rw [if_neg h1, if_pos h2]
  · intro now amount maxAge d h3
    simp only [getReusablePendingPix]
    by_cases h1 : ¬(asciiUpper d.status = "" ∨ asciiUpper d.status = "PENDING" ∨
        asciiUpper d.status = "WAITING_PAYMENT")
    · rw [if_pos h1]
    · rw [if_neg h1]
      by_cases h2 : (if d.checkout_url ≠ "" then d.checkout_url else d.pix_code) = ""
      · rw [if_pos h2]
      · rw [if_neg h2]
        have hage : (match parseIntStr (if d.created_at = "" then "0" else d.created_at) with
            | some c => now - c
            | none => maxAge + 1) = maxAge + 1 := by
          rw [h3]
        rw [hage, if_pos (by omega)]
  · intro now amount maxAge c d h3 h4
    simp only [getReusablePendingPix]
    by_cases h1 : ¬(asciiUpper d.status = "" ∨ asciiUpper d.status = "PENDING" ∨
        asciiUpper d.status = "WAITING_PAYMENT")
    · rw [if_pos h1]
    · rw [if_neg h1]
      by_cases h2 : (if d.checkout_url ≠ "" then d.checkout_url else d.pix_code) = ""
      · rw [if_pos h2]
      · rw [if_neg h2]
        have hage : (match parseIntStr (if d.created_at = "" then "0" else d.created_at) with
            | some c => now - c
            | none => maxAge + 1) = now - c := by
          rw [h3]
        rw [hage, if_pos h4]
  · intro now amount maxAge d hc hgt
    have h3 : parseIntStr (if d.created_at = "" then "0" else d.created_at) = some 0 := by
      rw [hc, if_pos rfl]
      decide
    simp only [getReusablePendingPix]
    by_cases h1 : ¬(asciiUpper d.status = "" ∨ asciiUpper d.status = "PENDING" ∨
        asciiUpper d.status = "WAITING_PAYMENT")
    · rw [if_pos h1]
    · rw [if_neg h1]
      by_cases h2 : (if d.checkout_url ≠ "" then d.checkout_url else d.pix_code) = ""
      · rw [if_pos h2]
      · rw [if_neg h2]
        have hage : (match parseIntStr (if d.created_at = "" then "0" else d.created_at) with
            | some c => now - c
            | none => maxAge + 1) = now - 0 := by
          rw [h3]
        rw [hage, if_pos (by omega)]

/-- C10 witness: the theorem applied to a concrete fresh pending record —
the result ignores the requested amount (7 vs 99) and returns the stored
checkout. -/
theorem reusable_pix_witness :
    getReusablePendingPix 100 7 300
        (some { status := "PENDING", checkout_url := "https://x", created_at := "50",
                identifier := "idX", transaction_id := "cs1", payment_code := "pc" })
      = getReusablePendingPix 100 99 300
        (some { status := "PENDING", checkout_url := "https://x", created_at := "50",
                identifier := "idX", transaction_id := "cs1", payment_code := "pc" })
  ∧ getReusablePendingPix 100 7 300
        (some { status := "PENDING", checkout_url := "https://x", created_at := "50",
                identifier := "idX", transaction_id := "cs1", payment_code := "pc" })
      = some { code := "https://x", transactionId := "cs1", status := "PENDING",
               qr_image := "", qr_base64 := "", identifier := "idX", payment_code := "pc",
               checkout_url := "https://x", reused := true } :=
  ⟨reusable_pix_amount_blind_freshness.1 100 300 7 99 _,
   reusable_pix_amount_blind_freshness.2.1 100 7 300 50
      { status := "PENDING", checkout_url := "https://x", created_at := "50",
        identifier := "idX", transaction_id := "cs1", payment_code := "pc" }
      (by decide) (by decide) (by decide) (by decide)⟩

end TelegramBot
